import Mathlib

/-!
Shallow embedding of the smart-home dashboard's core logic
(`src/SmartHomeDashboard.jsx`): the automation rules engine (lines
156-195), the history-window projection (lines 101-107), the telemetry
simulator value computation (lines 129-149), and the rule-creation form
validation (lines 212-233).  JavaScript runtime values that can flow
through the relevant fields (booleans, finite numbers, `NaN`,
`undefined`) are modelled by `JSVal`; finite numbers are modelled by `ℚ`.
-/

set_option allowUnsafeReducibility true in
attribute [semireducible] Rat.mul Rat.add Rat.sub Rat.inv Rat.ofScientific

namespace SmartHome

/-- A JavaScript value as it can appear in a device field or be computed
by the engine: `undefined`, a boolean, a finite number, or `NaN`. -/
inductive JSVal where
  | undef
  | bool (b : Bool)
  | num (q : ℚ)
  | nan
deriving DecidableEq

/-- A device record.  The engine reads only `id`, `isOn` and
`currentTemp`; the remaining fields mirror the JS record shape.  A field
absent from the JS object is `undef`. -/
structure Device where
  id : String
  name : String := ""
  type : String := ""
  room : String := ""
  isOn : JSVal := JSVal.undef
  currentTemp : JSVal := JSVal.undef
  targetTemp : JSVal := JSVal.undef
  brightness : JSVal := JSVal.undef
  speed : JSVal := JSVal.undef
  humidity : JSVal := JSVal.undef
deriving DecidableEq

/-- An automation rule as stored by the rule-creation form: all fields
are strings. -/
structure Rule where
  name : String
  triggerDevice : String
  triggerCondition : String
  triggerValue : String
  actionDevice : String
  actionType : String
  actionValue : String
deriving DecidableEq

/-- A single-field device write issued through `updateDoc`. -/
structure Mutation where
  deviceId : String
  field : String
  newValue : JSVal
deriving DecidableEq

/-- A user-visible feedback banner (`setFeedback`). -/
structure Feedback where
  message : String
  type : String
deriving DecidableEq

/-- One history document: `{deviceId, value, timestamp}`. -/
structure HistorySample where
  deviceId : String
  value : JSVal
  timestamp : ℚ
deriving DecidableEq

/-- JS whitespace skipped by `parseFloat`. -/
def jsSpace (c : Char) : Bool :=
  c == ' ' || c == '\t' || c == '\n' || c == '\r'

/-- Value of a list of decimal digit characters read left to right. -/
def digitsToNat (ds : List Char) : ℕ :=
  ds.foldl (fun acc c => 10 * acc + (c.toNat - 48)) 0

/-- Optional sign at the head of the character stream. -/
def parseSign (cs : List Char) : ℚ × List Char :=
  match cs with
  | '-' :: rest => (-1, rest)
  | '+' :: rest => (1, rest)
  | _ => (1, cs)

/-- Decimal fragment of JS `parseFloat` (sign, integer part, optional
fraction), returning `none` where JS returns `NaN`.  The exponent and
`Infinity` forms, which no dashboard input uses, are not modelled. -/
def parseFloatQ (s : String) : Option ℚ :=
  let signed := parseSign (s.data.dropWhile jsSpace)
  let ip := signed.2.takeWhile Char.isDigit
  let rest := signed.2.dropWhile Char.isDigit
  let fp :=
    match rest with
    | '.' :: r => r.takeWhile Char.isDigit
    | _ => []
  if ip.isEmpty && fp.isEmpty then none
  else some (signed.1 * ((digitsToNat ip : ℚ) + (digitsToNat fp : ℚ) / (10 : ℚ) ^ fp.length))

/-- JS `parseFloat` on the modelled value space. -/
def parseFloat (s : String) : JSVal :=
  match parseFloatQ s with
  | none => JSVal.nan
  | some q => JSVal.num q

/-- JS `ToNumber` on the modelled values. -/
def toNumber (v : JSVal) : JSVal :=
  match v with
  | JSVal.undef => JSVal.nan
  | JSVal.bool b => JSVal.num (if b then 1 else 0)
  | JSVal.num q => JSVal.num q
  | JSVal.nan => JSVal.nan

/-- JS `a > b` for non-string operands: numeric comparison, false when
either side converts to `NaN`. -/
def jsGt (a b : JSVal) : Bool :=
  match toNumber a, toNumber b with
  | JSVal.num x, JSVal.num y => decide (x > y)
  | _, _ => false

/-- JS `a < b` for non-string operands. -/
def jsLt (a b : JSVal) : Bool :=
  match toNumber a, toNumber b with
  | JSVal.num x, JSVal.num y => decide (x < y)
  | _, _ => false

/-- JS strict equality `===` on the modelled values; `NaN` is equal to
nothing, values of different types are never equal. -/
def strictEq (a b : JSVal) : Bool :=
  match a, b with
  | JSVal.undef, JSVal.undef => true
  | JSVal.bool x, JSVal.bool y => x == y
  | JSVal.num x, JSVal.num y => x == y
  | _, _ => false

/-- `devices.find(d => d.id === targetId)`. -/
def findDevice (devices : List Device) (targetId : String) : Option Device :=
  devices.find? (fun d => d.id == targetId)

/-- The rule's trigger condition against the trigger device's current
reading (the `switch` at lines 168-178; an unrecognised condition falls
through with `conditionMet` still false). -/
def conditionMet (rule : Rule) (trig : Device) : Bool :=
  if rule.triggerCondition = ">" then jsGt trig.currentTemp (parseFloat rule.triggerValue)
  else if rule.triggerCondition = "<" then jsLt trig.currentTemp (parseFloat rule.triggerValue)
  else if rule.triggerCondition = "==" then strictEq trig.isOn (JSVal.bool (rule.triggerValue == "on"))
  else false

/-- The value the action writes (line 183): a boolean for `toggle`
action types, otherwise `parseFloat(actionValue)`. -/
def desiredValue (rule : Rule) : JSVal :=
  if rule.actionType = "toggle" then JSVal.bool (rule.actionValue == "on")
  else parseFloat rule.actionValue

/-- One rule's evaluation against the device snapshot (lines 160-194):
resolve the trigger device (skip when absent), test the condition,
resolve the action device (skip when absent), and emit the `isOn` write
plus the success feedback unless the action device's `isOn` is already
the desired value. -/
def evalRule (devices : List Device) (rule : Rule) : Option (Mutation × Feedback) :=
  match findDevice devices rule.triggerDevice with
  | none => none
  | some trig =>
    match conditionMet rule trig with
    | false => none
    | true =>
      match findDevice devices rule.actionDevice with
      | none => none
      | some act =>
        match strictEq act.isOn (desiredValue rule) with
        | true => none
        | false =>
          some ({ deviceId := rule.actionDevice, field := "isOn", newValue := desiredValue rule },
                { message := "Rule triggered: " ++ rule.name, type := "success" })

/-- The mutations one engine pass emits, in rule-sequence order. -/
def evaluate (devices : List Device) (rules : List Rule) : List Mutation :=
  rules.filterMap (fun r => (evalRule devices r).map Prod.fst)

/-- Reflection of one emitted write back into the device snapshot: the
device with the mutation's id gets the mutated field's new value. -/
def applyMutation (devices : List Device) (m : Mutation) : List Device :=
  devices.map (fun d =>
    if d.id = m.deviceId then
      if m.field = "isOn" then { d with isOn := m.newValue }
      else if m.field = "currentTemp" then { d with currentTemp := m.newValue }
      else d
    else d)

/-- Outcome of the rule-creation form submission. -/
inductive SubmitResult where
  | rejected (fb : Feedback)
  | persisted (r : Rule) (fb : Feedback)
deriving DecidableEq

/-- `handleRuleSubmit` (lines 212-233): reject with an error banner when
`name`, `triggerDevice` or `actionDevice` is empty, otherwise persist
the rule unchanged and report success. -/
def handleRuleSubmit (newRule : Rule) : SubmitResult :=
  if newRule.name = "" ∨ newRule.triggerDevice = "" ∨ newRule.actionDevice = "" then
    SubmitResult.rejected { message := "All fields are required.", type := "error" }
  else
    SubmitResult.persisted newRule { message := "Rule created successfully!", type := "success" }

/-- Strict comparator of the history sort (line 104). -/
def tsLt (a b : HistorySample) : Bool :=
  decide (a.timestamp < b.timestamp)

/-- Insert a sample into an already sorted run, after every sample with
a strictly smaller timestamp (keeping arrival order among ties). -/
def insertByTs (s : HistorySample) : List HistorySample → List HistorySample
  | [] => [s]
  | t :: ts => if tsLt t s then t :: insertByTs s ts else s :: t :: ts

/-- Stable ascending sort by timestamp, modelling the JS
`data.sort((a, b) => a.timestamp - b.timestamp)` (a stable sort with a
numeric comparator). -/
def sortByTs (l : List HistorySample) : List HistorySample :=
  l.foldr insertByTs []

/-- The history listener's projection (lines 101-107): sort the full
snapshot by timestamp, keep the samples of `thermostat-1`, then
`slice(-30)` (the last 30, or everything when fewer). -/
def historyWindow (snapshot : List HistorySample) : List HistorySample :=
  let sorted := sortByTs snapshot
  let filtered := sorted.filter (fun s => s.deviceId == "thermostat-1")
  filtered.drop (filtered.length - 30)

/-- JS `a + d` where `a` is a modelled value and `d` a number. -/
def jsAdd (v : JSVal) (d : ℚ) : JSVal :=
  match toNumber v with
  | JSVal.num x => JSVal.num (x + d)
  | _ => JSVal.nan

/-- JS falsiness on the modelled values. -/
def isFalsy (v : JSVal) : Bool :=
  match v with
  | JSVal.undef => true
  | JSVal.nan => true
  | JSVal.bool b => !b
  | JSVal.num x => x == 0

/-- JS `v || d` with a numeric default. -/
def jsOrDefault (v : JSVal) (d : ℚ) : JSVal :=
  if isFalsy v then JSVal.num d else v

/-- JS `found?.currentTemp`: `undefined` when the lookup missed. -/
def optCurrentTemp (d : Option Device) : JSVal :=
  match d with
  | some dev => dev.currentTemp
  | none => JSVal.undef

/-- Line 135: `devices.find(d => d.id === 'thermostat-1')?.currentTemp
+ randomTempChange || 75`, with the random delta as a parameter.  The
`|| 75` applies to the whole sum, so a missing or non-numeric
`currentTemp` yields exactly 75, not `75 + delta`. -/
def simulatorNewTemp (devices : List Device) (delta : ℚ) : JSVal :=
  jsOrDefault (jsAdd (optCurrentTemp (findDevice devices "thermostat-1")) delta) 75

/-- One minute tick of the telemetry simulator (lines 129-149): append a
history sample for `thermostat-1` and write the same value to that
device's `currentTemp`. -/
def simulatorTick (devices : List Device) (delta now : ℚ) : HistorySample × Mutation :=
  ({ deviceId := "thermostat-1", value := simulatorNewTemp devices delta, timestamp := now },
   { deviceId := "thermostat-1", field := "currentTemp", newValue := simulatorNewTemp devices delta })

/-- The six seeded default devices (lines 21-28).  `thermostat-1` and
`humidity-1` carry no `isOn` field. -/
def mockDevices : List Device :=
  [{ id := "thermostat-1", name := "Living Room Thermostat", type := "thermostat",
     targetTemp := JSVal.num 72, currentTemp := JSVal.num 75, room := "Living Room" },
   { id := "light-1", name := "Main Living Light", type := "light",
     isOn := JSVal.bool true, brightness := JSVal.num 80, room := "Living Room" },
   { id := "fan-1", name := "Ceiling Fan", type := "fan",
     isOn := JSVal.bool false, speed := JSVal.num 0, room := "Living Room" },
   { id := "light-2", name := "Kitchen Light", type := "light",
     isOn := JSVal.bool false, brightness := JSVal.num 50, room := "Kitchen" },
   { id := "humidity-1", name := "Bedroom Humidifier", type := "humidity",
     humidity := JSVal.num 45, room := "Bedroom" },
   { id := "light-3", name := "Bedroom Lamp", type := "light",
     isOn := JSVal.bool true, brightness := JSVal.num 60, room := "Bedroom" }]

/-- A thermostat reading 76 degrees, as in the spec's worked scenario. -/
def devThermo76 : Device :=
  { id := "thermostat-1", type := "thermostat", currentTemp := JSVal.num 76 }

/-- A fan that is currently off. -/
def devFanOff : Device :=
  { id := "fan-1", type := "fan", isOn := JSVal.bool false }

/-- A light that is currently off. -/
def devLightOff : Device :=
  { id := "light-1", type := "light", isOn := JSVal.bool false }

/-- Turn the fan on when the thermostat reads above 75. -/
def ruleFanOn : Rule :=
  { name := "fan on", triggerDevice := "thermostat-1", triggerCondition := ">",
    triggerValue := "75", actionDevice := "fan-1", actionType := "toggle", actionValue := "on" }

/-- Turn the fan off when the fan is on: together with `ruleFanOn` this
oscillates across successive engine passes. -/
def ruleFanOffWhenOn : Rule :=
  { name := "fan off", triggerDevice := "fan-1", triggerCondition := "==",
    triggerValue := "on", actionDevice := "fan-1", actionType := "toggle", actionValue := "off" }

/-- A rule with a non-toggle action type and the numeric action value
"1": its action writes the number 1 into `isOn`. -/
def ruleNumeric : Rule :=
  { name := "numeric", triggerDevice := "thermostat-1", triggerCondition := ">",
    triggerValue := "70", actionDevice := "fan-1", actionType := "set", actionValue := "1" }

/-- An `==` rule whose trigger value "off" fails numeric parsing but
which still fires against an off light. -/
def ruleEqOff : Rule :=
  { name := "eq off", triggerDevice := "light-1", triggerCondition := "==",
    triggerValue := "off", actionDevice := "fan-1", actionType := "toggle", actionValue := "on" }

/-- A `>` rule with the non-numeric trigger value "warm". -/
def ruleWarm : Rule :=
  { name := "warm", triggerDevice := "thermostat-1", triggerCondition := ">",
    triggerValue := "warm", actionDevice := "fan-1", actionType := "toggle", actionValue := "on" }

/-- An `==` rule whose trigger device is the thermostat, which carries
no `isOn` field. -/
def ruleEqThermo : Rule :=
  { name := "eq thermo", triggerDevice := "thermostat-1", triggerCondition := "==",
    triggerValue := "off", actionDevice := "fan-1", actionType := "toggle", actionValue := "on" }

/-- A rule whose trigger device id resolves to nothing. -/
def ruleMissingTrigger : Rule :=
  { name := "missing", triggerDevice := "missing-1", triggerCondition := ">",
    triggerValue := "75", actionDevice := "fan-1", actionType := "toggle", actionValue := "on" }

/-- A rule whose action is already satisfied by `devFanOff`. -/
def ruleGuarded : Rule :=
  { name := "guarded", triggerDevice := "fan-1", triggerCondition := "==",
    triggerValue := "off", actionDevice := "fan-1", actionType := "toggle", actionValue := "off" }

/-- A rule that passes the form validation while leaving
`triggerCondition` (and `actionType`) empty. -/
def ruleEmptyCondition : Rule :=
  { name := "empty cond", triggerDevice := "thermostat-1", triggerCondition := "",
    triggerValue := "75", actionDevice := "fan-1", actionType := "", actionValue := "on" }

/-- A form submission with the required `name` left empty. -/
def ruleBlankName : Rule :=
  { name := "", triggerDevice := "thermostat-1", triggerCondition := ">",
    triggerValue := "75", actionDevice := "fan-1", actionType := "toggle", actionValue := "on" }

/-- The first engine pass's mutation in the oscillation scenario. -/
def mutFanOn : Mutation :=
  { deviceId := "fan-1", field := "isOn", newValue := JSVal.bool true }

/-- Thirty-five `thermostat-1` samples at strictly increasing
timestamps 0, 1, ..., 34. -/
def w35 : List HistorySample :=
  (List.range 35).map (fun i => { deviceId := "thermostat-1", value := JSVal.num 70,
                                  timestamp := mkRat i 1 })

/-- Strict equality is reflexive on every value except `NaN`. -/
theorem strictEq_self {v : JSVal} (h : v ≠ JSVal.nan) : strictEq v v = true := by
  cases v with
  | undef => rfl
  | bool b => simp [strictEq]
  | num q => simp [strictEq]
  | nan => exact absurd rfl h

/-- Comparisons against `NaN` on the right are always false. -/
theorem jsGt_nan_right (v : JSVal) : jsGt v JSVal.nan = false := by
  cases h : toNumber v <;> simp [jsGt, h, toNumber]

/-- Comparisons against `NaN` on the right are always false. -/
theorem jsLt_nan_right (v : JSVal) : jsLt v JSVal.nan = false := by
  cases h : toNumber v <;> simp [jsLt, h, toNumber]

/-- Anatomy of a fired rule: the mutation targets the rule's action
device's `isOn` field with the rule's desired value, and the action
device was found with an `isOn` differing from that value. -/
theorem evalRule_some_spec {devices : List Device} {r : Rule} {m : Mutation} {fb : Feedback}
    (h : evalRule devices r = some (m, fb)) :
    m.deviceId = r.actionDevice ∧ m.field = "isOn" ∧ m.newValue = desiredValue r ∧
    ∃ act, findDevice devices r.actionDevice = some act ∧
      strictEq act.isOn (desiredValue r) = false := by
  unfold evalRule at h
  cases hft : findDevice devices r.triggerDevice with
  | none => simp only [hft] at h; exact Option.noConfusion h
  | some trig =>
    simp only [hft] at h
    cases hcm : conditionMet r trig with
    | false => simp only [hcm] at h; exact Option.noConfusion h
    | true =>
      simp only [hcm] at h
      cases hfa : findDevice devices r.actionDevice with
      | none => simp only [hfa] at h; exact Option.noConfusion h
      | some act =>
        simp only [hfa] at h
        cases hse : strictEq act.isOn (desiredValue r) with
        | true => simp only [hse] at h; exact Option.noConfusion h
        | false =>
          simp only [hse, Option.some.injEq, Prod.mk.injEq] at h
          obtain ⟨hm, _⟩ := h
          subst hm
          exact ⟨rfl, rfl, rfl, act, rfl, hse⟩

/-- A rule whose condition fails against its resolved trigger device
evaluates to nothing. -/
theorem evalRule_eq_none_of_not_cond {devices : List Device} {r : Rule}
    (h : ∀ trig, findDevice devices r.triggerDevice = some trig → conditionMet r trig = false) :
    evalRule devices r = none := by
  unfold evalRule
  cases hft : findDevice devices r.triggerDevice with
  | none => rfl
  | some trig => simp only [h trig hft]

/-- Every emitted mutation comes from some rule of the pass. -/
theorem mem_evaluate {devices : List Device} {rules : List Rule} {m : Mutation}
    (h : m ∈ evaluate devices rules) :
    ∃ r ∈ rules, ∃ fb, evalRule devices r = some (m, fb) := by
  obtain ⟨r, hr, hmap⟩ := List.mem_filterMap.mp h
  obtain ⟨p, hp, hfst⟩ := Option.map_eq_some'.mp hmap
  exact ⟨r, hr, p.2, by rw [hp, ← hfst]⟩

/-- Applying an `isOn` mutation rewrites the `isOn` of the device the
id resolves to and nothing else about it. -/
theorem findDevice_applyMutation_self {devices : List Device} {m : Mutation} {d : Device}
    (hf : m.field = "isOn") (h : findDevice devices m.deviceId = some d) :
    findDevice (applyMutation devices m) m.deviceId = some { d with isOn := m.newValue } := by
  induction devices with
  | nil => simp [findDevice] at h
  | cons hd tl ih =>
    by_cases hid : hd.id = m.deviceId
    · have hbeq : (hd.id == m.deviceId) = true := beq_iff_eq.mpr hid
      unfold findDevice at h
      simp only [List.find?_cons, hbeq] at h
      injection h with h2
      subst h2
      unfold findDevice applyMutation
      simp only [List.map_cons, if_pos hid, if_pos hf, List.find?_cons]
      simp [hbeq]
    · have hbeq : (hd.id == m.deviceId) = false := beq_eq_false_iff_ne.mpr hid
      unfold findDevice at h
      simp only [List.find?_cons, hbeq] at h
      have ih2 := ih h
      unfold findDevice applyMutation at ih2 ⊢
      simp only [List.map_cons, if_neg hid, List.find?_cons, hbeq]
      exact ih2

/-- The head of a `filterMap` is the first hit of the function. -/
theorem head?_filterMap {α β : Type} (f : α → Option β) (l : List α) :
    (l.filterMap f).head? = l.findSome? f := by
  induction l with
  | nil => rfl
  | cons a l ih =>
    cases h : f a <;> simp [List.filterMap_cons, List.findSome?_cons, h, ih]

/-- The last element of a `filterMap` is the first hit in reverse
order. -/
theorem getLast?_filterMap {α β : Type} (f : α → Option β) (l : List α) :
    (l.filterMap f).getLast? = l.reverse.findSome? f := by
  rw [List.getLast?_eq_head?_reverse, ← List.filterMap_reverse, head?_filterMap]

/-- Filtering a `filterMap` is a `filterMap` with a filtered function. -/
theorem filter_filterMap_eq {α β : Type} (f : α → Option β) (p : β → Bool) (l : List α) :
    (l.filterMap f).filter p = l.filterMap (fun a =>
      (f a).bind (fun b => if p b then some b else none)) := by
  induction l with
  | nil => rfl
  | cons a l ih =>
    cases h : f a with
    | none => simp [List.filterMap_cons, h, ih]
    | some b =>
      cases hp : p b <;> simp [List.filterMap_cons, List.filter_cons, h, hp, ih]

/-- Sorting leaves a strictly increasing list unchanged. -/
theorem sortByTs_eq_self {l : List HistorySample}
    (h : List.Pairwise (fun a b => a.timestamp < b.timestamp) l) : sortByTs l = l := by
  induction l with
  | nil => rfl
  | cons x xs ih =>
    obtain ⟨hx, hxs⟩ := List.pairwise_cons.mp h
    have hrest : List.foldr insertByTs [] xs = xs := ih hxs
    show List.foldr insertByTs [] (x :: xs) = x :: xs
    rw [List.foldr_cons, hrest]
    cases xs with
    | nil => rfl
    | cons t ts =>
      have hlt : x.timestamp < t.timestamp := hx t (by simp)
      have hts : tsLt t x = false := by
        simp only [tsLt, decide_eq_false_iff_not]
        exact not_lt.mpr hlt.le
      unfold insertByTs
      rw [hts]
      simp

/-- C1 is refuted at this input: the first pass turns the fan on, and on
the snapshot with that mutation applied the second pass emits a further
`isOn` mutation for the same device (turning it off again), so the
engine does oscillate across passes when rules interact. -/
theorem engine_no_oscillation_cex :
    evaluate [devThermo76, devFanOff] [ruleFanOn, ruleFanOffWhenOn] = [mutFanOn] ∧
    evaluate (applyMutation [devThermo76, devFanOff] mutFanOn) [ruleFanOn, ruleFanOffWhenOn] =
      [{ deviceId := "fan-1", field := "isOn", newValue := JSVal.bool false }] := by
  decide

/-- C1 (amended): after a mutation with a non-`NaN` value is applied,
the second pass never re-emits a mutation writing the same value to the
same device — the idempotence guard blocks exactly the rewrite of the
value already in place, but not mutations writing a different value
(oscillation across rules remains possible), and a `NaN` value defeats
the guard. -/
theorem engine_same_value_guard (devices : List Device) (rules : List Rule)
    (m m2 : Mutation) (hm : m ∈ evaluate devices rules) (hnan : m.newValue ≠ JSVal.nan)
    (hm2 : m2 ∈ evaluate (applyMutation devices m) rules)
    (hdev : m2.deviceId = m.deviceId) : m2.newValue ≠ m.newValue := by
  obtain ⟨r, _, fb, he⟩ := mem_evaluate hm
  obtain ⟨hmid, hmf, _, act, hfa, _⟩ := evalRule_some_spec he
  obtain ⟨r2, _, fb2, he2⟩ := mem_evaluate hm2
  obtain ⟨hmid2, _, hmv2, act2, hfa2, hse2⟩ := evalRule_some_spec he2
  intro hvv
  have hfa1 : findDevice devices m.deviceId = some act := by rw [hmid]; exact hfa
  have happ := findDevice_applyMutation_self hmf hfa1
  have e : r2.actionDevice = m.deviceId := by rw [← hmid2]; exact hdev
  rw [e, happ] at hfa2
  injection hfa2 with hact2
  rw [← hact2] at hse2
  rw [← hmv2, hvv] at hse2
  rw [show ({ act with isOn := m.newValue } : Device).isOn = m.newValue from rfl] at hse2
  have hrefl := strictEq_self hnan
  rw [hse2] at hrefl
  exact Bool.noConfusion hrefl

/-- C1 witness for the amended statement, at the oscillation input: the
second-pass mutation for the fan indeed carries a different value. -/
theorem engine_same_value_guard_w : JSVal.bool false ≠ JSVal.bool true :=
  engine_same_value_guard [devThermo76, devFanOff] [ruleFanOn, ruleFanOffWhenOn]
    mutFanOn { deviceId := "fan-1", field := "isOn", newValue := JSVal.bool false }
    (by decide) (by decide) (by decide) (by decide)

/-- C2 is refuted at this input: a rule with the non-toggle action type
"set" and action value "1" emits the number 1 as the new `isOn` value,
not the boolean `actionValue == "on"`. -/
theorem action_value_numeric_cex :
    (evalRule [devThermo76, devFanOff] ruleNumeric).map (fun p => p.1.newValue) =
      some (JSVal.num 1) ∧ ∀ b : Bool, JSVal.num 1 ≠ JSVal.bool b := by
  decide

/-- C2 (amended): every emitted mutation targets the `isOn` field, but
its value is the boolean `actionValue == "on"` only when `actionType`
is "toggle"; for any other action type the value written into `isOn` is
`parseFloat(actionValue)` (a number, or `NaN`). -/
theorem action_targets_isOn_field (devices : List Device) (r : Rule) (m : Mutation)
    (fb : Feedback) (h : evalRule devices r = some (m, fb)) :
    m.field = "isOn" ∧
    m.newValue = (if r.actionType = "toggle" then JSVal.bool (r.actionValue == "on")
      else parseFloat r.actionValue) := by
  obtain ⟨_, hmf, hmv, _⟩ := evalRule_some_spec h
  exact ⟨hmf, hmv⟩

/-- C2 witness: the fired toggle rule writes the boolean into `isOn`. -/
theorem action_targets_isOn_field_w :
    mutFanOn.field = "isOn" ∧
    mutFanOn.newValue = (if ruleFanOn.actionType = "toggle"
      then JSVal.bool (ruleFanOn.actionValue == "on") else parseFloat ruleFanOn.actionValue) :=
  action_targets_isOn_field [devThermo76, devFanOff] ruleFanOn mutFanOn
    { message := "Rule triggered: fan on", type := "success" } (by decide)

/-- C4: a rule whose trigger device or action device id is absent from
the snapshot yields no mutation and no error — evaluation is total and
the rule is silently skipped. -/
theorem dangling_reference_skipped (devices : List Device) (r : Rule)
    (h : findDevice devices r.triggerDevice = none ∨ findDevice devices r.actionDevice = none) :
    evalRule devices r = none := by
  unfold evalRule
  cases hft : findDevice devices r.triggerDevice with
  | none => rfl
  | some trig =>
    rcases h with h | h
    · rw [hft] at h; exact Option.noConfusion h
    · cases hcm : conditionMet r trig with
      | false => simp only [hcm]
      | true => simp only [hcm, h]

/-- C4 witness: a rule referring to the unknown id "missing-1" is
skipped against the seeded devices. -/
theorem dangling_reference_skipped_w : evalRule mockDevices ruleMissingTrigger = none :=
  dangling_reference_skipped mockDevices ruleMissingTrigger (Or.inl (by decide))

/-- C3 is refuted at this input: two rules target the fan, both
conditions hold and both desired values differ from the snapshot state,
so both fire, and the final (last) emitted mutation for the fan is the
second rule's numeric write, not the first rule's. -/
theorem rule_order_first_rule_cex :
    ((evaluate [devThermo76, devFanOff] [ruleFanOn, ruleNumeric]).filter
        (fun m => m.deviceId == "fan-1")).getLast? =
      some { deviceId := "fan-1", field := "isOn", newValue := JSVal.num 1 } ∧
    (evalRule [devThermo76, devFanOff] ruleFanOn).map Prod.fst = some mutFanOn ∧
    ({ deviceId := "fan-1", field := "isOn", newValue := JSVal.num 1 } : Mutation) ≠ mutFanOn := by
  decide

/-- C3 (amended): each rule is evaluated independently against the
input snapshot, so the last emitted mutation for a device comes from
the last rule in sequence order that fires for it (not the first), and
a rule whose desired value already equals the device's snapshot `isOn`
emits nothing (the guard runs against the input snapshot). -/
theorem rule_order_last_write (devices : List Device) (rules : List Rule) (target : String) :
    ((evaluate devices rules).filter (fun m => m.deviceId == target)).getLast? =
      rules.reverse.findSome? (fun r =>
        ((evalRule devices r).map Prod.fst).bind
          (fun m => if m.deviceId == target then some m else none)) ∧
    ∀ (r : Rule) (act : Device), findDevice devices r.actionDevice = some act →
      strictEq act.isOn (desiredValue r) = true → evalRule devices r = none := by
  constructor
  · rw [show evaluate devices rules
        = rules.filterMap (fun r => (evalRule devices r).map Prod.fst) from rfl,
      filter_filterMap_eq, getLast?_filterMap]
  · intro r act hfa hse
    unfold evalRule
    cases hft : findDevice devices r.triggerDevice with
    | none => rfl
    | some trig =>
      cases hcm : conditionMet r trig with
      | false => simp only [hcm]
      | true => simp only [hcm, hfa, hse]

/-- C3 witness: a rule whose action device is already in the desired
state emits nothing. -/
theorem rule_order_last_write_w : evalRule [devFanOff] ruleGuarded = none :=
  (rule_order_last_write [devFanOff] [ruleGuarded] "fan-1").2 ruleGuarded devFanOff
    (by decide) (by decide)

/-- C5: on a snapshot of 35 `thermostat-1` samples with strictly
increasing timestamps, the computed window is exactly the 30 samples
with the largest timestamps, in ascending order: it equals the snapshot
with its 5 oldest samples dropped, has length 30, stays strictly
increasing, and every dropped sample is older than every kept one. -/
theorem history_window_recent30 (hs : List HistorySample)
    (hlen : hs.length = 35)
    (hdev : ∀ s ∈ hs, s.deviceId = "thermostat-1")
    (hinc : List.Pairwise (fun a b => a.timestamp < b.timestamp) hs) :
    historyWindow hs = hs.drop 5 ∧ (historyWindow hs).length = 30 ∧
    List.Pairwise (fun a b => a.timestamp < b.timestamp) (historyWindow hs) ∧
    ∀ a ∈ hs.take 5, ∀ b ∈ historyWindow hs, a.timestamp < b.timestamp := by
  have hsort : sortByTs hs = hs := sortByTs_eq_self hinc
  have hfilt : hs.filter (fun s => s.deviceId == "thermostat-1") = hs :=
    List.filter_eq_self.mpr (fun s hsm => by simp [hdev s hsm])
  have hwin : historyWindow hs = hs.drop 5 := by
    show ((sortByTs hs).filter (fun s => s.deviceId == "thermostat-1")).drop
      (((sortByTs hs).filter (fun s => s.deviceId == "thermostat-1")).length - 30) = hs.drop 5
    rw [hsort, hfilt, hlen]
  refine ⟨hwin, ?_, ?_, ?_⟩
  · rw [hwin, List.length_drop, hlen]
  · rw [hwin]
    exact List.Pairwise.sublist (List.drop_sublist 5 hs) hinc
  · intro a ha b hb
    rw [hwin] at hb
    have hp : List.Pairwise (fun a b => a.timestamp < b.timestamp) (hs.take 5 ++ hs.drop 5) := by
      rw [List.take_append_drop]; exact hinc
    exact (List.pairwise_append.mp hp).2.2 a ha b hb

/-- C5 witness: the 35-sample snapshot at timestamps 0..34 windows to
its last 30 samples. -/
theorem history_window_recent30_w : historyWindow w35 = w35.drop 5 :=
  (history_window_recent30 w35 (by decide) (by decide) (by decide)).1

/-- C6 is refuted at this input: the `==` branch never parses the
trigger value numerically, so a rule whose trigger value "off" fails
numeric parsing still fires (here against an off light). -/
theorem nan_trigger_cex :
    parseFloat "off" = JSVal.nan ∧
    (evalRule [devLightOff, devFanOff] ruleEqOff).isSome = true := by
  decide

/-- C6 (amended): a `>` or `<` rule whose trigger value fails numeric
parsing (yields `NaN`) never fires — the `NaN` comparison is false and
no error is raised; an `==` rule ignores numeric parsing of the trigger
value, and a failing action value does not prevent firing. -/
theorem nan_comparison_never_fires (devices : List Device) (r : Rule)
    (hc : r.triggerCondition = ">" ∨ r.triggerCondition = "<")
    (hp : parseFloat r.triggerValue = JSVal.nan) :
    evalRule devices r = none := by
  apply evalRule_eq_none_of_not_cond
  intro trig _
  unfold conditionMet
  rcases hc with hc | hc
  · rw [if_pos hc, hp, jsGt_nan_right]
  · rw [if_neg (by rw [hc]; decide), if_pos hc, hp, jsLt_nan_right]

/-- C6 witness: the spec's own scenario — a `>` rule with the
non-numeric trigger value "warm" emits nothing. -/
theorem nan_comparison_never_fires_w : evalRule mockDevices ruleWarm = none :=
  nan_comparison_never_fires mockDevices ruleWarm (Or.inl (by decide)) (by decide)

/-- C7: a submission with an empty `name`, `triggerDevice` or
`actionDevice` (the fields the validation requires) is rejected locally
with the error banner before any write, and everything the form does
persist has those fields non-empty and is the submitted rule unchanged. -/
theorem rule_form_validation :
    (∀ r : Rule, r.name = "" ∨ r.triggerDevice = "" ∨ r.actionDevice = "" →
      handleRuleSubmit r = SubmitResult.rejected
        { message := "All fields are required.", type := "error" }) ∧
    (∀ (r r2 : Rule) (fb : Feedback), handleRuleSubmit r = SubmitResult.persisted r2 fb →
      r2 = r ∧ r2.name ≠ "" ∧ r2.triggerDevice ≠ "" ∧ r2.actionDevice ≠ "") := by
  constructor
  · intro r h
    unfold handleRuleSubmit
    rw [if_pos h]
  · intro r r2 fb h
    unfold handleRuleSubmit at h
    by_cases hc : r.name = "" ∨ r.triggerDevice = "" ∨ r.actionDevice = ""
    · rw [if_pos hc] at h
      exact SubmitResult.noConfusion h
    · rw [if_neg hc] at h
      injection h with h1 _
      push_neg at hc
      subst h1
      exact ⟨rfl, hc.1, hc.2.1, hc.2.2⟩

/-- C7 witness: a blank-name submission is rejected with the error
banner. -/
theorem rule_form_validation_w :
    handleRuleSubmit ruleBlankName = SubmitResult.rejected
      { message := "All fields are required.", type := "error" } :=
  rule_form_validation.1 ruleBlankName (Or.inl (by decide))

/-- C8 is refuted at this input: with `thermostat-1` absent the
simulator's new value is exactly 75, not `75 + delta` as claimed (the
`|| 75` default applies to the whole sum). -/
theorem simulator_default_cex :
    simulatorNewTemp [] (1/2) = JSVal.num 75 ∧
    JSVal.num 75 ≠ JSVal.num (75 + 1/2) := by
  decide

/-- C8 (amended): each minute tick reads and writes only
`thermostat-1`; when that device is found with numeric `currentTemp`
`x` and `x + delta ≠ 0`, the appended sample and the device write both
carry `x + delta`; when the device is missing, its `currentTemp` is
`undefined` or `NaN`, or the sum is 0, the value is exactly 75 (not
`75 + delta`). -/
theorem simulator_tick_spec (devices : List Device) (delta now : ℚ) :
    (∀ (d : Device) (x : ℚ), findDevice devices "thermostat-1" = some d →
      d.currentTemp = JSVal.num x → x + delta ≠ 0 →
      simulatorTick devices delta now =
        ({ deviceId := "thermostat-1", value := JSVal.num (x + delta), timestamp := now },
         { deviceId := "thermostat-1", field := "currentTemp",
           newValue := JSVal.num (x + delta) })) ∧
    (∀ (d : Device) (x : ℚ), findDevice devices "thermostat-1" = some d →
      d.currentTemp = JSVal.num x → x + delta = 0 →
      simulatorNewTemp devices delta = JSVal.num 75) ∧
    (findDevice devices "thermostat-1" = none →
      simulatorNewTemp devices delta = JSVal.num 75) ∧
    (∀ d : Device, findDevice devices "thermostat-1" = some d →
      (d.currentTemp = JSVal.undef ∨ d.currentTemp = JSVal.nan) →
      simulatorNewTemp devices delta = JSVal.num 75) := by
  refine ⟨?_, ?_, ?_, ?_⟩
  · intro d x hfind hct hne
    unfold simulatorTick simulatorNewTemp optCurrentTemp
    simp only [hfind, hct]
    simp [jsAdd, toNumber, jsOrDefault, isFalsy, hne]
  · intro d x hfind hct hzero
    unfold simulatorNewTemp optCurrentTemp
    simp only [hfind, hct]
    simp [jsAdd, toNumber, jsOrDefault, isFalsy, hzero]
  · intro hfind
    unfold simulatorNewTemp optCurrentTemp
    simp only [hfind]
    rfl
  · intro d hfind hct
    unfold simulatorNewTemp optCurrentTemp
    simp only [hfind]
    rcases hct with hct | hct <;> simp only [hct] <;> rfl

/-- C8 witness: at a 76-degree thermostat and delta one half, the tick
appends and writes 76 plus one half. -/
theorem simulator_tick_spec_w :
    simulatorTick [devThermo76] (1/2) 0 =
      ({ deviceId := "thermostat-1", value := JSVal.num (76 + 1/2), timestamp := 0 },
       { deviceId := "thermostat-1", field := "currentTemp",
         newValue := JSVal.num (76 + 1/2) }) :=
  (simulator_tick_spec [devThermo76] (1/2) 0).1 devThermo76 76 (by decide) (by decide) (by decide)

/-- C9: an `==` rule whose resolved trigger device has no boolean
`isOn` (such as the seeded thermostat and humidity devices) never
fires, for every trigger value — strict equality between a non-boolean
and a boolean is always false. -/
theorem eq_condition_requires_bool (devices : List Device) (r : Rule) (trig : Device)
    (hc : r.triggerCondition = "==")
    (hft : findDevice devices r.triggerDevice = some trig)
    (hb : ∀ b : Bool, trig.isOn ≠ JSVal.bool b) :
    evalRule devices r = none := by
  apply evalRule_eq_none_of_not_cond
  intro trig2 hft2
  rw [hft] at hft2
  injection hft2 with htr
  subst htr
  unfold conditionMet
  rw [if_neg (by rw [hc]; decide), if_neg (by rw [hc]; decide), if_pos hc]
  cases hon : trig.isOn with
  | undef => rfl
  | bool b => exact absurd hon (hb b)
  | num q => rfl
  | nan => rfl

/-- C9 witness: an `==` rule triggered by the seeded thermostat (which
lacks `isOn`) with trigger value "off" emits nothing. -/
theorem eq_condition_requires_bool_w : evalRule mockDevices ruleEqThermo = none :=
  eq_condition_requires_bool mockDevices ruleEqThermo
    { id := "thermostat-1", name := "Living Room Thermostat", type := "thermostat",
      targetTemp := JSVal.num 72, currentTemp := JSVal.num 75, room := "Living Room" }
    (by decide) (by decide) (by decide)

/-- C10: rule evaluation is total on unrecognised trigger conditions —
any condition other than `>`, `<`, `==` (the empty string included)
makes the rule emit no mutation and no feedback, without error; and the
form validation does not reject a rule whose `triggerCondition` is
empty, so such rules are persisted. -/
theorem unrecognized_condition_safe :
    (∀ (devices : List Device) (r : Rule),
      r.triggerCondition ≠ ">" → r.triggerCondition ≠ "<" → r.triggerCondition ≠ "==" →
      evalRule devices r = none) ∧
    (∀ r : Rule, r.name ≠ "" → r.triggerDevice ≠ "" → r.actionDevice ≠ "" →
      handleRuleSubmit r = SubmitResult.persisted r
        { message := "Rule created successfully!", type := "success" }) := by
  constructor
  · intro devices r h1 h2 h3
    apply evalRule_eq_none_of_not_cond
    intro trig _
    unfold conditionMet
    rw [if_neg h1, if_neg h2, if_neg h3]
  · intro r h1 h2 h3
    unfold handleRuleSubmit
    rw [if_neg]
    push_neg
    exact ⟨h1, h2, h3⟩

/-- C10 witness: a rule with an empty trigger condition is persisted by
the form yet evaluates to nothing. -/
theorem unrecognized_condition_safe_w :
    evalRule mockDevices ruleEmptyCondition = none ∧
    handleRuleSubmit ruleEmptyCondition = SubmitResult.persisted ruleEmptyCondition
      { message := "Rule created successfully!", type := "success" } :=
  ⟨unrecognized_condition_safe.1 mockDevices ruleEmptyCondition
      (by decide) (by decide) (by decide),
   unrecognized_condition_safe.2 ruleEmptyCondition (by decide) (by decide) (by decide)⟩

end SmartHome
